import Mathlib

/-!
# Verification of the TgMessage notification relay

Shallow embedding of the two source files of the repository:
* `functions/githubWebhook.js` — the GitHub-webhook endpoint (`onRequest`,
  `formatPullRequestMessage`, `formatPushMessage`, `formatIssuesMessage`,
  `formatReleaseMessage`);
* the bot-update endpoint (`onRequest` of the webhook file handling
  chat-platform updates, the `/token` command).

JavaScript strings are modelled as Lean `String` (a list of characters),
JavaScript numbers used as identifiers as `Int`, nullable / possibly-absent
JSON fields as `Option`, a thrown exception in a formatter as
`Except.error ()`, and the outcome of the single outbound `sendMessage`
call as an oracle value passed to the handler.  The HMAC-SHA-256 function
of the `crypto` module is passed to the handler as an opaque function
argument, since the handler only composes with it.
-/

/-- JavaScript truthiness of a nullable string: `null`/`undefined` and the
empty string are falsy. -/
def jsTruthy : Option String → Bool
  | none => false
  | some s => if s = "" then false else true

/-- JavaScript template interpolation of a possibly-`undefined` value:
`undefined` prints as the literal string `"undefined"`. -/
def jsDisplay : Option String → String
  | none => "undefined"
  | some s => s

/-- JavaScript `s.substring(0, n)`: the first `n` characters of `s` (all of
`s` when it is shorter). -/
def strTake (s : String) (n : Nat) : String :=
  ⟨s.toList.take n⟩

/-- One step of JavaScript `String.prototype.replace` with a string pattern:
replace the FIRST occurrence of `pat` in the list (anywhere, not only as a
prefix) by `rep`; if `pat` does not occur, the list is unchanged. -/
def listReplaceFirst (pat rep : List Char) : List Char → List Char
  | [] => if pat.isPrefixOf ([] : List Char) then rep ++ ([] : List Char).drop pat.length else []
  | c :: rest =>
    if pat.isPrefixOf (c :: rest) then rep ++ (c :: rest).drop pat.length
    else c :: listReplaceFirst pat rep rest

/-- JavaScript `s.replace(pat, rep)` for a string pattern (first occurrence
only). -/
def jsReplaceFirst (s pat rep : String) : String :=
  ⟨listReplaceFirst pat.toList rep.toList s.toList⟩

/-- Whether `pat` occurs as a contiguous substring anywhere in the list. -/
def listContainsSub (pat : List Char) : List Char → Bool
  | [] => pat.isPrefixOf ([] : List Char)
  | c :: rest => pat.isPrefixOf (c :: rest) || listContainsSub pat rest

/-! ## Token codec

Modelled from the spec: the `Bot` class (`bot.js`) with its `encryption` and
`decryption` methods is not part of the provided sources — only its callers
are.  Per §4.1 the codec is a deterministic keyed encoding of one chat
identifier carrying an integrity check: `encode(chatId, key)` produces a
token from which `decode` recovers the identifier under the same key, and
`decode` rejects any token whose integrity check fails (wrong key,
corruption, tokens not produced by the codec) with a distinct failure
rather than a garbage identifier.  We model a token as the encoded payload
together with its keyed integrity tag. -/

/-- A chat token: the encoded chat identifier together with a keyed
integrity tag (modelled from the spec, see above). -/
structure ChatToken where
  payload : Int
  tag : Nat
deriving DecidableEq

/-- Modelled from the spec: the keyed integrity tag over the encoded
payload (stands in for the keyed digest of the real codec). -/
def tokenTag (c : Int) (key : Nat) : Nat :=
  ((c + Int.ofNat key).natAbs * 2654435761 + key + 1) % 4294967296

/-- Modelled from the spec: `encode(chatId, key)` — deterministic per
`(chatId, key)`, payload plus keyed integrity tag. -/
def encryption (c : Int) (key : Nat) : ChatToken :=
  ⟨c, tokenTag c key⟩

/-- Modelled from the spec: `decode(token, key)` — recomputes the integrity
tag and rejects the token (`none`) unless it matches. -/
def decryption (t : ChatToken) (key : Nat) : Option Int :=
  if t.tag = tokenTag t.payload key then some t.payload else none

/-- Modelled from the spec: URL-safe textual rendering of a token (used
only inside the `/token` reply text). -/
def tokenToString (t : ChatToken) : String :=
  toString t.payload ++ "-" ++ toString t.tag

/-! ## Data model of the GitHub webhook payload -/

structure PullRequestData where
  title : String
  number : Int
  html_url : String
  merged : Bool
deriving DecidableEq

structure RepositoryData where
  full_name : String
  html_url : String
deriving DecidableEq

structure SenderData where
  login : String
deriving DecidableEq

structure HeadCommitData where
  message : String
  url : String
deriving DecidableEq

structure IssueData where
  title : String
  number : Int
  html_url : String
deriving DecidableEq

structure ReleaseData where
  tag_name : String
  name : Option String
  html_url : String
deriving DecidableEq

/-- The parsed JSON body of a GitHub webhook request; every field may be
absent. -/
structure GithubPayload where
  action : Option String := none
  pull_request : Option PullRequestData := none
  repository : Option RepositoryData := none
  sender : Option SenderData := none
  ref : Option String := none
  head_commit : Option HeadCommitData := none
  issue : Option IssueData := none
  release : Option ReleaseData := none
deriving DecidableEq

/-- Result of the chat platform `sendMessage` API call (oracle). -/
structure SendApiResult where
  ok : Bool
  description : String
deriving DecidableEq

/-- An outbound message handed to the chat platform. -/
structure OutboundMessage where
  text : String
  chat_id : Sum String Int
  parse_mode : Option String
deriving DecidableEq

/-- An HTTP response of a handler together with the trace of outbound
sends performed while producing it. -/
structure HandlerResult where
  status : Nat
  message : String
  sends : List OutboundMessage
deriving DecidableEq

/-! ## Message formatters (`githubWebhook.js` lines 136-260)

A formatter returns `Except.error ()` where the JavaScript code would throw
a `TypeError` (reading a property of `undefined`), and `Except.ok` of the
produced string otherwise. -/

/-- The `switch (action)` of `formatPullRequestMessage` (lines 148-163). -/
def prActionText (action : Option String) (merged : Bool) : String :=
  if action = some "opened" then "创建了新的"
  else if action = some "closed" then (if merged then "合并了" else "关闭了")
  else if action = some "reopened" then "重新打开了"
  else if action = some "edited" then "编辑了"
  else "更新了(" ++ jsDisplay action ++ ")"

/-- `formatPullRequestMessage` (lines 136-168). -/
def formatPullRequestMessage (data : GithubPayload) : Except Unit String :=
  match data.pull_request, data.repository with
  | some pr, some repo =>
    match data.sender with
    | none => Except.error ()
    | some sender =>
      Except.ok ("<b>GitHub PR通知</b>\n\n<a href=\"" ++ pr.html_url ++ "\">"
        ++ repo.full_name ++ " #" ++ toString pr.number ++ "</a>\n"
        ++ sender.login ++ " " ++ prActionText data.action pr.merged
        ++ " Pull Request: " ++ pr.title)
  | _, _ => Except.ok ""

/-- The template literal of `formatPushMessage` (lines 187-190) with the
branch name and the commit excerpt as holes. -/
def pushMessageText (repo : RepositoryData) (sender : SenderData)
    (branch commitPart : String) : String :=
  "<b>GitHub Push通知</b>\n\n<a href=\"" ++ repo.html_url ++ "\">"
    ++ repo.full_name ++ "</a>\n" ++ sender.login ++ " 推送到 "
    ++ branch ++ " 分支\n提交: " ++ commitPart

/-- `formatPushMessage` (lines 175-191).  `ref.replace(...)` is evaluated
before `sender.login`, so a missing `ref` throws even when `sender` is also
missing. -/
def formatPushMessage (data : GithubPayload) : Except Unit String :=
  match data.repository, data.head_commit with
  | some repo, some hc =>
    match data.ref with
    | none => Except.error ()
    | some ref =>
      match data.sender with
      | none => Except.error ()
      | some sender =>
        Except.ok (pushMessageText repo sender
          (jsReplaceFirst ref "refs/heads/" "")
          (strTake hc.message 100
            ++ (if 100 < hc.message.length then "..." else "")))
  | _, _ => Except.ok ""

/-- The `switch (action)` of `formatIssuesMessage` (lines 210-225). -/
def issuesActionText (action : Option String) : String :=
  if action = some "opened" then "创建了新的"
  else if action = some "closed" then "关闭了"
  else if action = some "reopened" then "重新打开了"
  else if action = some "edited" then "编辑了"
  else "更新了(" ++ jsDisplay action ++ ")"

/-- `formatIssuesMessage` (lines 198-230). -/
def formatIssuesMessage (data : GithubPayload) : Except Unit String :=
  match data.issue, data.repository with
  | some issue, some repo =>
    match data.sender with
    | none => Except.error ()
    | some sender =>
      Except.ok ("<b>GitHub Issue通知</b>\n\n<a href=\"" ++ issue.html_url ++ "\">"
        ++ repo.full_name ++ " #" ++ toString issue.number ++ "</a>\n"
        ++ sender.login ++ " " ++ issuesActionText data.action
        ++ " Issue: " ++ issue.title)
  | _, _ => Except.ok ""

/-- The `switch (action)` of `formatReleaseMessage` (lines 249-255). -/
def releaseActionText (action : Option String) : String :=
  if action = some "published" then "发布了新的"
  else "更新了(" ++ jsDisplay action ++ ")"

/-- `formatReleaseMessage` (lines 237-260); `release.name || tagName`
falls back to the tag name when `name` is absent or the empty string. -/
def formatReleaseMessage (data : GithubPayload) : Except Unit String :=
  match data.release, data.repository with
  | some rel, some repo =>
    match data.sender with
    | none => Except.error ()
    | some sender =>
      let name := match rel.name with
        | some n => if n = "" then rel.tag_name else n
        | none => rel.tag_name
      Except.ok ("<b>GitHub Release通知</b>\n\n<a href=\"" ++ rel.html_url ++ "\">"
        ++ repo.full_name ++ "</a>\n" ++ sender.login ++ " "
        ++ releaseActionText data.action ++ " Release: " ++ name)
  | _, _ => Except.ok ""

/-! ## The GitHub webhook endpoint (`githubWebhook.js` `onRequest`) -/

/-- Environment of the GitHub-webhook endpoint. -/
structure GhEnv where
  github_webhook_secret : Option String := none
  default_chat_id : Option String := none
  sign_key : Nat := 0
deriving DecidableEq

/-- The aspects of the inbound HTTP request the handler reads.
`parsedBody = none` models a body on which `JSON.parse` throws. -/
structure GhRequest where
  method : String := "POST"
  eventTypeHeader : Option String := none
  signatureHeader : Option String := none
  rawBody : String := ""
  parsedBody : Option GithubPayload := none
  tokenParam : Option ChatToken := none
deriving DecidableEq

/-- The `switch (eventType)` of `onRequest` (lines 82-97). -/
def formatEvent (eventType : String) (data : GithubPayload) : Except Unit String :=
  if eventType = "pull_request" then formatPullRequestMessage data
  else if eventType = "push" then formatPushMessage data
  else if eventType = "issues" then formatIssuesMessage data
  else if eventType = "release" then formatReleaseMessage data
  else Except.ok ("收到GitHub事件: " ++ eventType)

/-- Chat-target resolution from the `token` query parameter (lines 60-70):
a decryption failure is caught and leaves the target unresolved. -/
def resolveFromToken (env : GhEnv) (req : GhRequest) : Option (Sum String Int) :=
  match req.tokenParam with
  | some t =>
    match decryption t env.sign_key with
    | some c => some (Sum.inr c)
    | none => none
  | none => none

/-- Chat-target resolution (lines 52-70): the configured default chat id
takes priority; the token parameter is consulted only when the default is
absent or empty (falsy). -/
def resolveChatId (env : GhEnv) (req : GhRequest) : Option (Sum String Int) :=
  match env.default_chat_id with
  | some d => if d = "" then resolveFromToken env req else some (Sum.inl d)
  | none => resolveFromToken env req

/-- JavaScript falsiness of the resolved chat id (`if (!chatId)`): the
empty string and the number 0 are falsy. -/
def cidFalsy : Sum String Int → Bool
  | Sum.inl s => if s = "" then true else false
  | Sum.inr c => if c = 0 then true else false

/-- The part of `onRequest` after the signature check (lines 46-121): JSON
parse, chat-target resolution, formatting, delivery.  An exception anywhere
is caught by the surrounding `try` and yields 500 (lines 122-128). -/
def handleEvent (env : GhEnv) (req : GhRequest) (sendResult : SendApiResult) :
    HandlerResult :=
  match req.parsedBody with
  | none => ⟨500, "Server error", []⟩
  | some data =>
    match resolveChatId env req with
    | none => ⟨422, "No valid chat_id provided", []⟩
    | some cid =>
      if cidFalsy cid then ⟨422, "No valid chat_id provided", []⟩
      else
        match formatEvent (req.eventTypeHeader.getD "") data with
        | Except.error _ => ⟨500, "Server error", []⟩
        | Except.ok msg =>
          if msg = "" then ⟨200, "No message to send", []⟩
          else
            let out : OutboundMessage := ⟨msg, cid, some "HTML"⟩
            if sendResult.ok then ⟨200, "Notification sent successfully", [out]⟩
            else ⟨422, sendResult.description, [out]⟩

/-- `onRequest` of `githubWebhook.js` (lines 8-129).  `hmacHex secret body`
stands for the hex HMAC-SHA-256 digest computed by the `crypto` module. -/
def githubWebhookHandler (env : GhEnv) (req : GhRequest)
    (hmacHex : String → String → String) (sendResult : SendApiResult) :
    HandlerResult :=
  if req.method ≠ "POST" then ⟨405, "Please use POST method", []⟩
  else if ¬ jsTruthy req.eventTypeHeader then ⟨400, "Missing X-GitHub-Event header", []⟩
  else if jsTruthy env.github_webhook_secret && jsTruthy req.signatureHeader then
    let digest := "sha256=" ++ hmacHex (env.github_webhook_secret.getD "") req.rawBody
    if req.signatureHeader.getD "" ≠ digest then ⟨401, "Invalid signature", []⟩
    else handleEvent env req sendResult
  else handleEvent env req sendResult

/-! ## The bot-update endpoint (third handler of the unnamed source file) -/

structure TgChat where
  id : Option Int
deriving DecidableEq

structure TgMessageData where
  text : Option String
  chat : Option TgChat
deriving DecidableEq

structure TgUpdate where
  message : Option TgMessageData
deriving DecidableEq

structure BotEnv where
  token : Option String := none
  sign_key : Nat := 0
deriving DecidableEq

structure BotRequest where
  method : String := "POST"
  body : Option TgUpdate := none
deriving DecidableEq

/-- The `/token` reply text (line 113). -/
def tokenReplyText (t : ChatToken) : String :=
  "您的专属 Token:\n\n" ++ tokenToString t ++ "\n\n请保存此 Token，用于发送消息通知。"

/-- `onRequest` of the bot-update endpoint (unnamed file, lines 76-146).
`body = none` models a body on which `request.json()` throws (caught,
500); a falsy `chat_id` gives 400, a missing bot token 500; on `/token`
the token is sent and a failed send (`!ret.ok`) gives 500; every other
path falls through to the trailing 200 `success`. -/
def botUpdateHandler (env : BotEnv) (req : BotRequest)
    (sendResult : SendApiResult) : HandlerResult :=
  if req.method ≠ "POST" then ⟨405, "Please use POST method", []⟩
  else
    match req.body with
    | none => ⟨500, "Server error", []⟩
    | some data =>
      let text := (data.message.bind TgMessageData.text).getD ""
      match (data.message.bind TgMessageData.chat).bind TgChat.id with
      | none => ⟨400, "No chat_id found", []⟩
      | some cid =>
        if cid = 0 then ⟨400, "No chat_id found", []⟩
        else if ¬ jsTruthy env.token then ⟨500, "Bot token not configured", []⟩
        else if text = "/token" then
          let out : OutboundMessage :=
            ⟨tokenReplyText (encryption cid env.sign_key), Sum.inr cid, none⟩
          if sendResult.ok then ⟨200, "success", [out]⟩
          else ⟨500, "Failed to send message: " ++ sendResult.description, [out]⟩
        else ⟨200, "success", []⟩

/-! ## Claims -/

/-- An absent value is falsy. -/
theorem jsTruthy_none : jsTruthy none = false := rfl

/-- C1: Token codec round-trip: decoding the token produced by encoding a
chat identifier `c` under key `key` yields `c` again, and decoding any
token not produced by the codec under that key fails deterministically
(`none`) rather than returning a wrong identifier. -/
theorem tokenCodec_roundtrip_and_reject :
    (∀ (c : Int) (key : Nat), decryption (encryption c key) key = some c) ∧
    (∀ (t : ChatToken) (key : Nat), (∀ c : Int, encryption c key ≠ t) →
      decryption t key = none) := by
  constructor
  · intro c key
    simp [decryption, encryption]
  · intro t key h
    by_cases htag : t.tag = tokenTag t.payload key
    · exfalso
      apply h t.payload
      cases t with
      | mk p g =>
        have hg : g = tokenTag p key := htag
        simp [encryption, hg]
    · simp [decryption, htag]

/-- Witness for C1 at concrete inputs: identifier 42 under key 7 round
trips, and a token with a corrupted tag is rejected. -/
theorem tokenCodec_roundtrip_and_reject_witness :
    decryption (encryption 42 7) 7 = some 42 ∧
    decryption ⟨0, tokenTag 0 0 + 1⟩ 0 = none := by
  constructor
  · exact tokenCodec_roundtrip_and_reject.1 42 7
  · refine tokenCodec_roundtrip_and_reject.2 ⟨0, tokenTag 0 0 + 1⟩ 0 ?_
    intro c hc
    have h1 : c = 0 := congrArg ChatToken.payload hc
    have h2 : tokenTag c 0 = tokenTag 0 0 + 1 := congrArg ChatToken.tag hc
    subst h1
    omega

/-- C2: signature verification happens exactly when both a webhook secret
is configured (truthy) and the `X-Hub-Signature-256` header is present
(truthy): in that case a header that differs from
`"sha256=" ++ hmac(secret, rawBody)` yields a 401 response with no
outbound send; when either is missing the result of the handler does not depend
on the HMAC function at all (verification is skipped entirely). -/
theorem signatureVerification_iff_secret_and_header :
    (∀ (env : GhEnv) (req : GhRequest) (hmacHex : String → String → String)
        (sr : SendApiResult) (s sig : String),
      req.method = "POST" → jsTruthy req.eventTypeHeader = true →
      env.github_webhook_secret = some s → s ≠ "" →
      req.signatureHeader = some sig → sig ≠ "" →
      sig ≠ "sha256=" ++ hmacHex s req.rawBody →
      githubWebhookHandler env req hmacHex sr = ⟨401, "Invalid signature", []⟩) ∧
    (∀ (env : GhEnv) (req : GhRequest) (h1 h2 : String → String → String)
        (sr : SendApiResult),
      (jsTruthy env.github_webhook_secret && jsTruthy req.signatureHeader) = false →
      githubWebhookHandler env req h1 sr = githubWebhookHandler env req h2 sr) := by
  constructor
  · intro env req hmacHex sr s sig hm hev hsec hsne hsig hsigne hmism
    have hsT : jsTruthy (some s) = true := by simp [jsTruthy, hsne]
    have hsgT : jsTruthy (some sig) = true := by simp [jsTruthy, hsigne]
    simp [githubWebhookHandler, hm, hev, hsec, hsig, hsT, hsgT, hmism]
  · intro env req h1 h2 sr hskip
    simp [githubWebhookHandler, hskip]

/-- Witness for C2 at concrete inputs: a configured secret plus a present
but mismatching header gives 401 and no send; with no secret configured
the result is the same for two different HMAC functions. -/
theorem signatureVerification_iff_secret_and_header_witness :
    githubWebhookHandler ⟨some "sec", none, 0⟩
      { method := "POST", eventTypeHeader := some "push", signatureHeader := some "bad",
        rawBody := "B", parsedBody := none, tokenParam := none }
      (fun _ _ => "D") ⟨true, ""⟩ = ⟨401, "Invalid signature", []⟩ ∧
    githubWebhookHandler ⟨none, some "5", 0⟩
      { method := "POST", eventTypeHeader := some "push", signatureHeader := some "x",
        rawBody := "B", parsedBody := none, tokenParam := none }
      (fun _ _ => "D1") ⟨true, ""⟩ =
    githubWebhookHandler ⟨none, some "5", 0⟩
      { method := "POST", eventTypeHeader := some "push", signatureHeader := some "x",
        rawBody := "B", parsedBody := none, tokenParam := none }
      (fun _ _ => "D2") ⟨true, ""⟩ := by
  constructor
  · exact signatureVerification_iff_secret_and_header.1 _ _ _ _ "sec" "bad"
      rfl rfl rfl (by decide) rfl (by decide) (by decide)
  · exact signatureVerification_iff_secret_and_header.2 _ _ _ _ _ rfl

/-- C3 counterexample: a request whose `token` query parameter cannot be
decoded, with no default chat identifier configured, is answered with
status 422 (`No valid chat_id provided`), not 401 as the claim states. -/
theorem undecodableToken_status_not_401 :
    (githubWebhookHandler ⟨none, none, 0⟩
      { method := "POST", eventTypeHeader := some "push", signatureHeader := none,
        rawBody := "", parsedBody := some {}, tokenParam := some ⟨5, tokenTag 5 0 + 1⟩ }
      (fun _ _ => "") ⟨true, ""⟩).status = 422 ∧
    (githubWebhookHandler ⟨none, none, 0⟩
      { method := "POST", eventTypeHeader := some "push", signatureHeader := none,
        rawBody := "", parsedBody := some {}, tokenParam := some ⟨5, tokenTag 5 0 + 1⟩ }
      (fun _ _ => "") ⟨true, ""⟩).status ≠ 401 := by
  constructor
  · decide
  · decide

/-- C3 (amended): a webhook request whose `token` query parameter fails to
decode, with no default chat identifier configured, is rejected with
status 422 and the generic message `No valid chat_id provided` (the
decryption failure is swallowed, so the reply does not reveal which part
of validation failed), with no outbound send. -/
theorem undecodableToken_gives_422 :
    ∀ (env : GhEnv) (req : GhRequest) (hmacHex : String → String → String)
      (sr : SendApiResult) (t : ChatToken) (d : GithubPayload),
      req.method = "POST" → jsTruthy req.eventTypeHeader = true →
      env.github_webhook_secret = none →
      req.parsedBody = some d →
      env.default_chat_id = none →
      req.tokenParam = some t →
      decryption t env.sign_key = none →
      githubWebhookHandler env req hmacHex sr =
        ⟨422, "No valid chat_id provided", []⟩ := by
  intro env req hmacHex sr t d hm hev hsec hbody hdef htok hdec
  simp [githubWebhookHandler, hm, hev, hsec, jsTruthy_none, handleEvent, hbody,
        resolveChatId, hdef, resolveFromToken, htok, hdec]

/-- Witness for the amended C3 at concrete inputs. -/
theorem undecodableToken_gives_422_witness :
    githubWebhookHandler ⟨none, none, 3⟩
      { method := "POST", eventTypeHeader := some "issues", signatureHeader := none,
        rawBody := "", parsedBody := some {}, tokenParam := some ⟨9, 0⟩ }
      (fun _ _ => "h") ⟨true, ""⟩ = ⟨422, "No valid chat_id provided", []⟩ := by
  exact undecodableToken_gives_422 ⟨none, none, 3⟩
    { method := "POST", eventTypeHeader := some "issues", signatureHeader := none,
      rawBody := "", parsedBody := some {}, tokenParam := some ⟨9, 0⟩ }
    (fun _ _ => "h") ⟨true, ""⟩ ⟨9, 0⟩ {} rfl rfl rfl rfl rfl rfl (by decide)

/-- C4 counterexample: on the bot-update endpoint, a `/token` command whose
outbound send fails (`ok:false`) is answered with status 500, not 200 —
although the chat id is present and the bot token is configured, so none
of the exceptions permitted by the claim applies. -/
theorem botUpdate_failedSend_not_200 :
    (botUpdateHandler ⟨some "tok", 0⟩
      { method := "POST", body := some ⟨some ⟨some "/token", some ⟨some 5⟩⟩⟩ }
      ⟨false, "boom"⟩).status = 500 ∧
    (botUpdateHandler ⟨some "tok", 0⟩
      { method := "POST", body := some ⟨some ⟨some "/token", some ⟨some 5⟩⟩⟩ }
      ⟨false, "boom"⟩).status ≠ 200 := by
  constructor
  · decide
  · decide

/-- C4 (amended): the bot-update endpoint returns 200 regardless of
internal outcome, except for a missing/falsy chat id (400), a missing bot
token (500), a malformed body (500), and — when the text is the `/token`
command — a failed outbound send of the token message (500). -/
theorem botUpdate_status_characterization :
    ∀ (env : BotEnv) (req : BotRequest) (sr : SendApiResult)
      (data : TgUpdate) (cid : Int),
      req.method = "POST" → req.body = some data →
      (data.message.bind TgMessageData.chat).bind TgChat.id = some cid →
      cid ≠ 0 → jsTruthy env.token = true →
      (((data.message.bind TgMessageData.text).getD "" ≠ "/token" ∨ sr.ok = true) →
        (botUpdateHandler env req sr).status = 200) ∧
      ((data.message.bind TgMessageData.text).getD "" = "/token" → sr.ok = false →
        (botUpdateHandler env req sr).status = 500) := by
  intro env req sr data cid hm hb hcid hc0 htok
  constructor
  · intro h
    rcases h with h | h
    · simp [botUpdateHandler, hm, hb, hcid, hc0, htok, h]
    · by_cases ht : (data.message.bind TgMessageData.text).getD "" = "/token"
      · simp [botUpdateHandler, hm, hb, hcid, hc0, htok, ht, h]
      · simp [botUpdateHandler, hm, hb, hcid, hc0, htok, ht]
  · intro ht hok
    simp [botUpdateHandler, hm, hb, hcid, hc0, htok, ht, hok]

/-- Witness for the amended C4 at concrete inputs: an ordinary message is
acknowledged with 200, and a `/token` command with a failing send gives
500. -/
theorem botUpdate_status_characterization_witness :
    (botUpdateHandler ⟨some "T", 1⟩
      { method := "POST", body := some ⟨some ⟨some "hello", some ⟨some 7⟩⟩⟩ }
      ⟨true, ""⟩).status = 200 ∧
    (botUpdateHandler ⟨some "T", 1⟩
      { method := "POST", body := some ⟨some ⟨some "/token", some ⟨some 7⟩⟩⟩ }
      ⟨false, "down"⟩).status = 500 := by
  constructor
  · exact (botUpdate_status_characterization ⟨some "T", 1⟩
      { method := "POST", body := some ⟨some ⟨some "hello", some ⟨some 7⟩⟩⟩ }
      ⟨true, ""⟩ ⟨some ⟨some "hello", some ⟨some 7⟩⟩⟩ 7
      rfl rfl rfl (by decide) (by decide)).1 (Or.inr rfl)
  · exact (botUpdate_status_characterization ⟨some "T", 1⟩
      { method := "POST", body := some ⟨some ⟨some "/token", some ⟨some 7⟩⟩⟩ }
      ⟨false, "down"⟩ ⟨some ⟨some "/token", some ⟨some 7⟩⟩⟩ 7
      rfl rfl rfl (by decide) (by decide)).2 rfl rfl

/-- The pull-request action-verb mapping exactly as the specification
states it: `opened` → created verb, `closed` → merged verb when the merged
flag is set else closed verb, `reopened`/`edited` → their verbs, anything
else → a generic updated-verb carrying the raw action string verbatim. -/
def specPRVerb (a : String) (merged : Bool) : String :=
  if a = "opened" then "创建了新的"
  else if a = "closed" then (if merged then "合并了" else "关闭了")
  else if a = "reopened" then "重新打开了"
  else if a = "edited" then "编辑了"
  else "更新了(" ++ a ++ ")"

/-- C5: for every pull-request payload carrying the required fields and an
action string, the formatted message uses exactly the action verb the
specification prescribes (`specPRVerb`), with the raw action string
preserved verbatim in the fallback case. -/
theorem prVerb_matches_spec :
    ∀ (data : GithubPayload) (pr : PullRequestData) (repo : RepositoryData)
      (sender : SenderData) (a : String),
      data.pull_request = some pr → data.repository = some repo →
      data.sender = some sender → data.action = some a →
      formatPullRequestMessage data =
        Except.ok ("<b>GitHub PR通知</b>\n\n<a href=\"" ++ pr.html_url ++ "\">"
          ++ repo.full_name ++ " #" ++ toString pr.number ++ "</a>\n"
          ++ sender.login ++ " " ++ specPRVerb a pr.merged
          ++ " Pull Request: " ++ pr.title) := by
  intro data pr repo sender a hpr hrepo hsend ha
  have hverb : prActionText data.action pr.merged = specPRVerb a pr.merged := by
    rw [ha]
    by_cases h1 : a = "opened"
    · simp [prActionText, specPRVerb, h1]
    · by_cases h2 : a = "closed"
      · simp [prActionText, specPRVerb, h1, h2]
      · by_cases h3 : a = "reopened"
        · simp [prActionText, specPRVerb, h1, h2, h3]
        · by_cases h4 : a = "edited"
          · simp [prActionText, specPRVerb, h1, h2, h3, h4]
          · simp [prActionText, specPRVerb, h1, h2, h3, h4, jsDisplay]
  simp [formatPullRequestMessage, hpr, hrepo, hsend, hverb]

/-- Witness for C5 at the literal scenario of the spec: a merged close uses the
merged verb. -/
theorem prVerb_matches_spec_witness :
    formatPullRequestMessage
      { action := some "closed", pull_request := some ⟨"T", 7, "h", true⟩,
        repository := some ⟨"a/b", "ru"⟩, sender := some ⟨"bob"⟩ } =
      Except.ok ("<b>GitHub PR通知</b>\n\n<a href=\"" ++ "h" ++ "\">"
        ++ "a/b" ++ " #" ++ toString (7 : Int) ++ "</a>\n"
        ++ "bob" ++ " " ++ "合并了" ++ " Pull Request: " ++ "T") := by
  have h := prVerb_matches_spec
    { action := some "closed", pull_request := some ⟨"T", 7, "h", true⟩,
      repository := some ⟨"a/b", "ru"⟩, sender := some ⟨"bob"⟩ }
    ⟨"T", 7, "h", true⟩ ⟨"a/b", "ru"⟩ ⟨"bob"⟩ "closed" rfl rfl rfl rfl
  simpa [specPRVerb] using h

/-- When the pattern is a prefix, replacing its first occurrence replaces
exactly that leading copy. -/
theorem listReplaceFirst_of_isPrefixOf {pat : List Char} (rep : List Char)
    {s : List Char} (h : pat.isPrefixOf s = true) :
    listReplaceFirst pat rep s = rep ++ s.drop pat.length := by
  cases s <;> simp [listReplaceFirst, h]

/-- When the pattern occurs nowhere in the list, replacing its first
occurrence changes nothing. -/
theorem listReplaceFirst_of_not_contains {pat : List Char} (rep : List Char)
    {s : List Char} (h : listContainsSub pat s = false) :
    listReplaceFirst pat rep s = s := by
  induction s with
  | nil =>
    simp [listContainsSub] at h
    simp [listReplaceFirst, h]
  | cons c rest ih =>
    simp [listContainsSub] at h
    obtain ⟨h1, h2⟩ := h
    simp [listReplaceFirst, h1, ih h2]

/-- C6 counterexample: for the ref `"xrefs/heads/main"` the prefix
`refs/heads/` is absent, yet the formatted message does NOT leave the ref
unchanged — the code substitutes the first occurrence of `refs/heads/`
anywhere in the string, producing the branch name `"xmain"`. -/
theorem pushBranch_substitution_counterexample :
    ("refs/heads/".toList.isPrefixOf "xrefs/heads/main".toList = false) ∧
    formatPushMessage
      { ref := some "xrefs/heads/main", repository := some ⟨"a/b", "u"⟩,
        head_commit := some ⟨"m", "c"⟩, sender := some ⟨"alice"⟩ } =
      Except.ok (pushMessageText ⟨"a/b", "u"⟩ ⟨"alice"⟩ "xmain" "m") ∧
    pushMessageText ⟨"a/b", "u"⟩ ⟨"alice"⟩ "xmain" "m" ≠
      pushMessageText ⟨"a/b", "u"⟩ ⟨"alice"⟩ "xrefs/heads/main" "m" := by
  refine ⟨by decide, ?_, by decide⟩
  rfl

/-- C6 (amended): the branch name in the push message is the ref with the
FIRST occurrence of `refs/heads/` removed: when `refs/heads/` is a prefix
it is stripped, and when `refs/heads/` occurs nowhere in the ref the ref
is left completely unchanged (but a non-prefix occurrence is still
substituted, as the counterexample shows). -/
theorem pushBranch_stripping_behavior :
    ∀ (data : GithubPayload) (repo : RepositoryData) (hc : HeadCommitData)
      (sender : SenderData) (ref : String),
      data.repository = some repo → data.head_commit = some hc →
      data.ref = some ref → data.sender = some sender →
      (("refs/heads/".toList.isPrefixOf ref.toList = true →
        formatPushMessage data = Except.ok (pushMessageText repo sender
          (⟨ref.toList.drop ("refs/heads/".toList.length)⟩ : String)
          (strTake hc.message 100
            ++ (if 100 < hc.message.length then "..." else "")))) ∧
       (listContainsSub "refs/heads/".toList ref.toList = false →
        formatPushMessage data = Except.ok (pushMessageText repo sender ref
          (strTake hc.message 100
            ++ (if 100 < hc.message.length then "..." else ""))))) := by
  intro data repo hc sender ref hrepo hhc href hsend
  constructor
  · intro hpre
    have hb : jsReplaceFirst ref "refs/heads/" "" =
        (⟨ref.toList.drop ("refs/heads/".toList.length)⟩ : String) := by
      show (⟨listReplaceFirst "refs/heads/".toList "".toList ref.toList⟩ : String) = _
      rw [listReplaceFirst_of_isPrefixOf ("".toList) hpre]
      rfl
    simp [formatPushMessage, hrepo, hhc, href, hsend, hb]
  · intro hnc
    have hb : jsReplaceFirst ref "refs/heads/" "" = ref := by
      show (⟨listReplaceFirst "refs/heads/".toList "".toList ref.toList⟩ : String) = ref
      rw [listReplaceFirst_of_not_contains ("".toList) hnc]
      rfl
    simp [formatPushMessage, hrepo, hhc, href, hsend, hb]

/-- Witness for the amended C6 at concrete inputs: `refs/heads/main` is
stripped to `main`. -/
theorem pushBranch_stripping_behavior_witness :
    formatPushMessage
      { ref := some "refs/heads/main", repository := some ⟨"r/s", "v"⟩,
        head_commit := some ⟨"msg", "cu"⟩, sender := some ⟨"eve"⟩ } =
      Except.ok (pushMessageText ⟨"r/s", "v"⟩ ⟨"eve"⟩
        (⟨"refs/heads/main".toList.drop ("refs/heads/".toList.length)⟩ : String)
        (strTake "msg" 100 ++ (if 100 < "msg".length then "..." else ""))) := by
  exact (pushBranch_stripping_behavior
    { ref := some "refs/heads/main", repository := some ⟨"r/s", "v"⟩,
      head_commit := some ⟨"msg", "cu"⟩, sender := some ⟨"eve"⟩ }
    ⟨"r/s", "v"⟩ ⟨"msg", "cu"⟩ ⟨"eve"⟩ "refs/heads/main"
    rfl rfl rfl rfl).1 (by decide)

/-- C7: the commit excerpt in the push message is the first 100 characters
of `head_commit.message`; an ellipsis is appended exactly when the message
is strictly longer than 100 characters (a message of at most 100
characters — in particular exactly 100 — appears unchanged with no
ellipsis), and the truncated excerpt has length exactly 100. -/
theorem pushCommit_truncation :
    ∀ (data : GithubPayload) (repo : RepositoryData) (hc : HeadCommitData)
      (sender : SenderData) (ref : String),
      data.repository = some repo → data.head_commit = some hc →
      data.ref = some ref → data.sender = some sender →
      ((hc.message.length ≤ 100 →
        formatPushMessage data = Except.ok (pushMessageText repo sender
          (jsReplaceFirst ref "refs/heads/" "") hc.message)) ∧
       (100 < hc.message.length →
        formatPushMessage data = Except.ok (pushMessageText repo sender
          (jsReplaceFirst ref "refs/heads/" "")
          (strTake hc.message 100 ++ "...")) ∧
        (strTake hc.message 100).length = 100)) := by
  intro data repo hc sender ref hrepo hhc href hsend
  constructor
  · intro hle
    have h1 : ¬ 100 < hc.message.length := Nat.not_lt.mpr hle
    have hlen : hc.message.data.length ≤ 100 := hle
    have h2 : strTake hc.message 100 = hc.message := by
      show (⟨hc.message.data.take 100⟩ : String) = hc.message
      rw [List.take_of_length_le hlen]
    simp [formatPushMessage, hrepo, hhc, href, hsend, h1, h2, String.append_empty]
  · intro hgt
    refine ⟨?_, ?_⟩
    · simp [formatPushMessage, hrepo, hhc, href, hsend, hgt]
    · have hlen : 100 ≤ hc.message.data.length := Nat.le_of_lt hgt
      show (hc.message.data.take 100).length = 100
      rw [List.length_take]
      exact Nat.min_eq_left hlen

set_option maxRecDepth 4096 in
/-- Witness for C7 at the literal scenario of the spec: a 150-character commit
message yields a 100-character excerpt followed by an ellipsis. -/
theorem pushCommit_truncation_witness :
    formatPushMessage
      { ref := some "refs/heads/main", repository := some ⟨"a/b", "u"⟩,
        head_commit := some ⟨⟨List.replicate 150 'x'⟩, "c"⟩,
        sender := some ⟨"alice"⟩ } =
      Except.ok (pushMessageText ⟨"a/b", "u"⟩ ⟨"alice"⟩
        (jsReplaceFirst "refs/heads/main" "refs/heads/" "")
        (strTake ⟨List.replicate 150 'x'⟩ 100 ++ "...")) ∧
    (strTake (⟨List.replicate 150 'x'⟩ : String) 100).length = 100 := by
  exact (pushCommit_truncation
    { ref := some "refs/heads/main", repository := some ⟨"a/b", "u"⟩,
      head_commit := some ⟨⟨List.replicate 150 'x'⟩, "c"⟩,
      sender := some ⟨"alice"⟩ }
    ⟨"a/b", "u"⟩ ⟨⟨List.replicate 150 'x'⟩, "c"⟩ ⟨"alice"⟩ "refs/heads/main"
    rfl rfl rfl rfl).2 (by decide)

/-- C8: for each of the four recognized event types, a payload missing a
required field makes the formatter return the empty string, and an empty
formatted message short-circuits delivery: the handler performs no
outbound send and responds 200 `No message to send`. -/
theorem emptyFormat_shortCircuits :
    (∀ d : GithubPayload, d.pull_request = none ∨ d.repository = none →
      formatPullRequestMessage d = Except.ok "") ∧
    (∀ d : GithubPayload, d.repository = none ∨ d.head_commit = none →
      formatPushMessage d = Except.ok "") ∧
    (∀ d : GithubPayload, d.issue = none ∨ d.repository = none →
      formatIssuesMessage d = Except.ok "") ∧
    (∀ d : GithubPayload, d.release = none ∨ d.repository = none →
      formatReleaseMessage d = Except.ok "") ∧
    (∀ (env : GhEnv) (req : GhRequest) (hm : String → String → String)
        (sr : SendApiResult) (et dd : String) (d : GithubPayload),
      req.method = "POST" → req.eventTypeHeader = some et → et ≠ "" →
      env.github_webhook_secret = none → req.parsedBody = some d →
      env.default_chat_id = some dd → dd ≠ "" →
      formatEvent et d = Except.ok "" →
      githubWebhookHandler env req hm sr = ⟨200, "No message to send", []⟩) := by
  refine ⟨?_, ?_, ?_, ?_, ?_⟩
  · intro d h
    rcases h with h | h
    · unfold formatPullRequestMessage
      rw [h]
    · unfold formatPullRequestMessage
      rw [h]
      cases d.pull_request <;> rfl
  · intro d h
    rcases h with h | h
    · unfold formatPushMessage
      rw [h]
    · unfold formatPushMessage
      rw [h]
      cases d.repository <;> rfl
  · intro d h
    rcases h with h | h
    · unfold formatIssuesMessage
      rw [h]
    · unfold formatIssuesMessage
      rw [h]
      cases d.issue <;> rfl
  · intro d h
    rcases h with h | h
    · unfold formatReleaseMessage
      rw [h]
    · unfold formatReleaseMessage
      rw [h]
      cases d.release <;> rfl
  · intro env req hm sr et dd d hmeth hev hetne hsec hbody hdef hddne hfmt
    simp [githubWebhookHandler, hmeth, hev, hetne, hsec, jsTruthy, handleEvent,
          hbody, resolveChatId, hdef, hddne, cidFalsy, hfmt]

/-- Witness for C8 at the literal scenario of the spec: a `pull_request` event
whose payload has a `repository` but no `pull_request` field formats to
the empty string and the handler sends nothing, answering 200. -/
theorem emptyFormat_shortCircuits_witness :
    formatPullRequestMessage { repository := some ⟨"a/b", "u"⟩ } = Except.ok "" ∧
    githubWebhookHandler ⟨none, some "99", 0⟩
      { method := "POST", eventTypeHeader := some "pull_request",
        signatureHeader := none, rawBody := "",
        parsedBody := some { repository := some ⟨"a/b", "u"⟩ },
        tokenParam := none }
      (fun _ _ => "") ⟨true, ""⟩ = ⟨200, "No message to send", []⟩ := by
  constructor
  · exact emptyFormat_shortCircuits.1 { repository := some ⟨"a/b", "u"⟩ } (Or.inl rfl)
  · exact emptyFormat_shortCircuits.2.2.2.2 ⟨none, some "99", 0⟩
      { method := "POST", eventTypeHeader := some "pull_request",
        signatureHeader := none, rawBody := "",
        parsedBody := some { repository := some ⟨"a/b", "u"⟩ },
        tokenParam := none }
      (fun _ _ => "") ⟨true, ""⟩ "pull_request" "99"
      { repository := some ⟨"a/b", "u"⟩ }
      rfl rfl (by decide) rfl rfl rfl (by decide) rfl

/-- C9: the formatters need more than the required fields stated by the spec — a
pull_request/issues/release payload with its two required fields but no
`sender`, and a push payload with `repository` and `head_commit` but no
`ref`, make the formatter throw (modelled `Except.error ()`), and the
catch of the handler turns this into a 500 `Server error` response with no
outbound send (instead of a no-message acknowledgment). -/
theorem missingSenderOrRef_gives_500 :
    (∀ (d : GithubPayload) (pr : PullRequestData) (repo : RepositoryData),
      d.pull_request = some pr → d.repository = some repo → d.sender = none →
      formatPullRequestMessage d = Except.error ()) ∧
    (∀ (d : GithubPayload) (repo : RepositoryData) (hc : HeadCommitData),
      d.repository = some repo → d.head_commit = some hc → d.ref = none →
      formatPushMessage d = Except.error ()) ∧
    (∀ (d : GithubPayload) (iss : IssueData) (repo : RepositoryData),
      d.issue = some iss → d.repository = some repo → d.sender = none →
      formatIssuesMessage d = Except.error ()) ∧
    (∀ (d : GithubPayload) (rel : ReleaseData) (repo : RepositoryData),
      d.release = some rel → d.repository = some repo → d.sender = none →
      formatReleaseMessage d = Except.error ()) ∧
    (∀ (env : GhEnv) (req : GhRequest) (hm : String → String → String)
        (sr : SendApiResult) (et dd : String) (d : GithubPayload),
      req.method = "POST" → req.eventTypeHeader = some et → et ≠ "" →
      env.github_webhook_secret = none → req.parsedBody = some d →
      env.default_chat_id = some dd → dd ≠ "" →
      formatEvent et d = Except.error () →
      githubWebhookHandler env req hm sr = ⟨500, "Server error", []⟩) := by
  refine ⟨?_, ?_, ?_, ?_, ?_⟩
  · intro d pr repo hpr hrepo hs
    unfold formatPullRequestMessage
    rw [hpr, hrepo, hs]
  · intro d repo hc hrepo hhc hr
    unfold formatPushMessage
    rw [hrepo, hhc, hr]
  · intro d iss repo hiss hrepo hs
    unfold formatIssuesMessage
    rw [hiss, hrepo, hs]
  · intro d rel repo hrel hrepo hs
    unfold formatReleaseMessage
    rw [hrel, hrepo, hs]
  · intro env req hm sr et dd d hmeth hev hetne hsec hbody hdef hddne hfmt
    simp [githubWebhookHandler, hmeth, hev, hetne, hsec, jsTruthy, handleEvent,
          hbody, resolveChatId, hdef, hddne, cidFalsy, hfmt]

/-- Witness for C9 at concrete inputs: a push payload with `repository`
and `head_commit` but no `ref` makes the formatter throw, and the handler
answers 500 with no outbound send. -/
theorem missingSenderOrRef_gives_500_witness :
    formatPushMessage
      { repository := some ⟨"a/b", "u"⟩, head_commit := some ⟨"m", "c"⟩,
        sender := some ⟨"alice"⟩ } = Except.error () ∧
    githubWebhookHandler ⟨none, some "42", 0⟩
      { method := "POST", eventTypeHeader := some "push",
        signatureHeader := none, rawBody := "",
        parsedBody := some { repository := some ⟨"a/b", "u"⟩,
                             head_commit := some ⟨"m", "c"⟩,
                             sender := some ⟨"alice"⟩ },
        tokenParam := none }
      (fun _ _ => "") ⟨true, ""⟩ = ⟨500, "Server error", []⟩ := by
  constructor
  · exact missingSenderOrRef_gives_500.2.1
      { repository := some ⟨"a/b", "u"⟩, head_commit := some ⟨"m", "c"⟩,
        sender := some ⟨"alice"⟩ } ⟨"a/b", "u"⟩ ⟨"m", "c"⟩ rfl rfl rfl
  · exact missingSenderOrRef_gives_500.2.2.2.2 ⟨none, some "42", 0⟩
      { method := "POST", eventTypeHeader := some "push",
        signatureHeader := none, rawBody := "",
        parsedBody := some { repository := some ⟨"a/b", "u"⟩,
                             head_commit := some ⟨"m", "c"⟩,
                             sender := some ⟨"alice"⟩ },
        tokenParam := none }
      (fun _ _ => "") ⟨true, ""⟩ "push" "42"
      { repository := some ⟨"a/b", "u"⟩, head_commit := some ⟨"m", "c"⟩,
        sender := some ⟨"alice"⟩ }
      rfl rfl (by decide) rfl rfl rfl (by decide) rfl

/-- C10: when a non-empty default chat identifier is configured in the
environment, the behavior of the webhook handler is completely independent of
the `token` query parameter — for any two requests identical except for
the token (including an invalid or forged one), the resolved chat target,
the outbound sends and the response are identical, so an invalid token
never causes a rejection. -/
theorem defaultChatId_makes_token_irrelevant :
    ∀ (env : GhEnv) (dd : String) (req : GhRequest)
      (t1 t2 : Option ChatToken) (hm : String → String → String)
      (sr : SendApiResult),
      env.default_chat_id = some dd → dd ≠ "" →
      githubWebhookHandler env { req with tokenParam := t1 } hm sr =
        githubWebhookHandler env { req with tokenParam := t2 } hm sr := by
  intro env dd req t1 t2 hm sr hdef hne
  cases req with
  | mk m ev sig raw body tok =>
    simp [githubWebhookHandler, handleEvent, resolveChatId, hdef, hne]

/-- Witness for C10 at concrete inputs: with a default chat id configured,
a forged token and an absent token give the same result. -/
theorem defaultChatId_makes_token_irrelevant_witness :
    githubWebhookHandler ⟨none, some "7", 5⟩
      { method := "POST", eventTypeHeader := some "x", signatureHeader := none,
        rawBody := "", parsedBody := some {}, tokenParam := some ⟨1, 2⟩ }
      (fun _ _ => "") ⟨true, ""⟩ =
    githubWebhookHandler ⟨none, some "7", 5⟩
      { method := "POST", eventTypeHeader := some "x", signatureHeader := none,
        rawBody := "", parsedBody := some {}, tokenParam := none }
      (fun _ _ => "") ⟨true, ""⟩ := by
  exact defaultChatId_makes_token_irrelevant ⟨none, some "7", 5⟩ "7"
    { method := "POST", eventTypeHeader := some "x", signatureHeader := none,
      rawBody := "", parsedBody := some {}, tokenParam := none }
    (some ⟨1, 2⟩) none (fun _ _ => "") ⟨true, ""⟩ rfl (by decide)
